import Mathlib

/-!
Verification of the selection, parsing, precondition-filter and strategy-resolution
logic of the `pyicontract-hypothesis` integration
(`icontract/integration/with_hypothesis/icontract_hypothesis.py`,
`icontract/integration/with_hypothesis/patched_from_type.py`).

Python's machine-level details that the claims depend on (the `re` character
classes `\s` and `\d` on ASCII input, and the two literal regular expressions
`_LINE_RANGE_RE` and `_SETTING_STATEMENT_RE`) are embedded as deterministic
scanners over `List Char`; both regexes are deterministic up to backtracking
that provably cannot succeed (after a digit run, the continuation always
requires a non-digit), so the scanners below are faithful.
-/

namespace IcontractHypothesis

/-- Python `\s` (ASCII range): space, tab, newline, carriage return, vertical tab, form feed. -/
def isPySpace (c : Char) : Bool :=
  c == ' ' || c == '\t' || c == '\n' || c == '\r' || c == '\x0b' || c == '\x0c'

/-- Python `\d` on ASCII input. -/
def isPyDigit (c : Char) : Bool :=
  '0' ≤ c && c ≤ '9'

/-- Greedy `\s*`: drop the maximal run of whitespace characters. -/
def dropSpaces : List Char → List Char
  | [] => []
  | c :: cs => if isPySpace c then dropSpaces cs else c :: cs

/-- Python `int()` on a string of decimal digits. -/
def digitsToNat (ds : List Char) : Nat :=
  ds.foldl (fun n c => 10 * n + (c.toNat - '0'.toNat)) 0

/-- The group `[0-9]|[1-9][0-9]+` of `_LINE_RANGE_RE`: a single digit, or two or
more digits without a leading zero. -/
def validFirstRun : List Char → Bool
  | [] => false
  | [_] => true
  | c :: _ :: _ => c != '0'

/-- The group `[1-9]|[1-9][0-9]+` of `_LINE_RANGE_RE`: one or more digits, the
first of which is not zero. -/
def validLastRun : List Char → Bool
  | [] => false
  | c :: _ => c != '0'

/-- The tail `(\s*-\s*(?P<last>...))?\s*$` of `_LINE_RANGE_RE`, given the
validity test for the `last` digit run.  Returns `some none` when the optional
group is absent, `some (some last)` when present. -/
def matchLineTail (validLast : List Char → Bool) (rest : List Char) : Option (Option Nat) :=
  match dropSpaces rest with
  | [] => some none
  | c :: r2 =>
    if c == '-' then
      if validLast ((dropSpaces r2).span isPyDigit).1
          && (dropSpaces ((dropSpaces r2).span isPyDigit).2).isEmpty then
        some (some (digitsToNat ((dropSpaces r2).span isPyDigit).1))
      else none
    else none

/-- Shared scanner for `^\s*(first)(\s*-\s*(last))?\s*$`-shaped regexes, given
the validity tests for the two digit runs. -/
def matchLineShape (validFirst validLast : List Char → Bool) (text : String) :
    Option (Nat × Option Nat) :=
  if validFirst ((dropSpaces text.data).span isPyDigit).1 then
    match matchLineTail validLast ((dropSpaces text.data).span isPyDigit).2 with
    | some lastOpt => some (digitsToNat ((dropSpaces text.data).span isPyDigit).1, lastOpt)
    | none => none
  else none

/-- Embeds `_LINE_RANGE_RE =
`^\s*(?P<first>[0-9]|[1-9][0-9]+)(\s*-\s*(?P<last>[1-9]|[1-9][0-9]+))?\s*$``
(icontract_hypothesis.py line 44): the numeric groups on success. -/
def lineRangeMatch (text : String) : Option (Nat × Option Nat) :=
  matchLineShape validFirstRun validLastRun text

/-- The grammar the specification states for line specs:
`^\s*(\d+)(\s*-\s*(\d+))?\s*$` — both digit runs merely nonempty. -/
def specLineGrammarMatch (text : String) : Option (Nat × Option Nat) :=
  matchLineShape (fun ds => !ds.isEmpty) (fun ds => !ds.isEmpty) text

/-- A parsed point specification: a line range (`LineRange` in the source) or a
name pattern (`re.Pattern` in the source). -/
inductive PointSpec where
  | lineRange (first last : Nat)
  | pattern (text : String)
deriving DecidableEq

/-- Error message of `_parse_point_spec` for a line index `<= 0`. -/
def lineIndexError (text : String) : String :=
  "Unexpected line index (expected to start from 1): " ++ text

/-- Error message of `_parse_point_spec` for a range with `last < first`. -/
def lineRangeErrorName (text : String) : String :=
  "Unexpected line range (last < first): " ++ text

/-- Error message of `_parse_point_spec` when `re.compile` fails. -/
def patternCompileError (text err : String) : String :=
  "Failed to parse the pattern " ++ text ++ ": " ++ err

/-- The fallback branch of `_parse_point_spec`: compile the text as a regular
expression through the external `re.compile` model. -/
def patternBranch (reCompile : String → Except String Unit) (text : String) :
    Option PointSpec × List String :=
  match reCompile text with
  | .ok _ => (some (.pattern text), [])
  | .error err => (none, [patternCompileError text err])

/-- Embeds `_parse_point_spec` (icontract_hypothesis.py lines 46-83).
`reCompile` models the external `re.compile`: `.ok` when the text compiles as a
regular expression, `.error msg` with the library's message otherwise.
Returns `(parsed point spec, errors if any)` as the source does. -/
def parse_point_spec (reCompile : String → Except String Unit) (text : String) :
    Option PointSpec × List String :=
  match lineRangeMatch text with
  | some (first, none) =>
    if first ≤ 0 then (none, [lineIndexError text])
    else (some (.lineRange first first), [])
  | some (first, some last) =>
    if first ≤ 0 then (none, [lineIndexError text])
    else if last < first then (none, [lineRangeErrorName text])
    else (some (.lineRange first last), [])
  | none => patternBranch reCompile text

/-- A `re.compile` model that always succeeds (every text used with it below is
a valid regular expression). -/
def reCompileOk : String → Except String Unit := fun _ => .ok ()

/-- Embeds `ParamsGeneral` (icontract_hypothesis.py lines 31-42): the parsed
include and exclude point specifications. -/
structure ParamsGeneral where
  includeSpecs : List PointSpec
  excludeSpecs : List PointSpec
deriving DecidableEq

/-- One step of the `_parse_general_params` loops: parse the text, extend the
error list with the spec's errors, and append the spec only when it produced no
errors. -/
def collectStep (reCompile : String → Except String Unit)
    (acc : List PointSpec × List String) (t : String) : List PointSpec × List String :=
  match parse_point_spec reCompile t with
  | (some s, []) => (acc.1 ++ [s], acc.2)
  | (_, errs) => (acc.1, acc.2 ++ errs)

/-- One loop of `_parse_general_params` over one list of spec texts. -/
def collectSpecs (reCompile : String → Except String Unit) (texts : List String) :
    List PointSpec × List String :=
  texts.foldl (collectStep reCompile) ([], [])

/-- The effect of one `if args.... is not None:` guard of
`_parse_general_params`: a `None` argument contributes nothing. -/
def optCollect (reCompile : String → Except String Unit) (arg : Option (List String)) :
    List PointSpec × List String :=
  match arg with
  | none => ([], [])
  | some ts => collectSpecs reCompile ts

/-- Embeds `_parse_general_params` (icontract_hypothesis.py lines 85-114):
`none` for an argument models the corresponding `args.include`/`args.exclude`
being `None`.  The error list is the includes' errors followed by the
excludes' errors, as the source accumulates them.  Returns
`(parsed parameters, errors if any)`. -/
def parse_general_params (reCompile : String → Except String Unit)
    (includeArg excludeArg : Option (List String)) : Option ParamsGeneral × List String :=
  if ((optCollect reCompile includeArg).2 ++ (optCollect reCompile excludeArg).2).isEmpty then
    (some ⟨(optCollect reCompile includeArg).1, (optCollect reCompile excludeArg).1⟩, [])
  else
    (none, (optCollect reCompile includeArg).2 ++ (optCollect reCompile excludeArg).2)

/-- All errors the point-spec texts produce, in input order. -/
def allSpecErrors (reCompile : String → Except String Unit) (texts : List String) :
    List String :=
  texts.foldr (fun t acc => (parse_point_spec reCompile t).2 ++ acc) []

/-- The default of the `-e`/`--exclude` command-line argument
(`default=['^_.*$']` in `_make_argument_parser`, icontract_hypothesis.py
line 291): when the flag is not supplied, `args.exclude` is this list. -/
def defaultExcludeArg : List String := ["^_.*$"]

/-- The value `args.exclude` carries into `_parse_general_params`:
the supplied list, or the default `['^_.*$']` when the flag is absent. -/
def effectiveExcludeArg (supplied : Option (List String)) : List String :=
  supplied.getD defaultExcludeArg

/-- Models the external `re` semantics of the one literal pattern `^_.*$`
(via `re.match` on a name): an underscore, then any characters none of which is
a newline, with `$` also matching just before one final trailing newline. -/
def matchesDefaultExcludePattern (name : String) : Bool :=
  match name.data with
  | [] => false
  | c :: cs =>
    c == '_' &&
      (!(cs.any (fun ch => ch == '\n'))
        || (cs.getLast? == some '\n' && !(cs.dropLast.any (fun ch => ch == '\n'))))

/-- Embeds `Point` (icontract_hypothesis.py lines 331-344): a discovered
testable function with its inclusive source span; the callable itself is
represented by its name. -/
structure Point where
  firstRow : Nat
  lastRow : Nat
  name : String
deriving DecidableEq

/-- A function of the loaded module as `_select_points` sees it through
`dir(mod)`/`inspect`: its name, the starting row reported by
`inspect.getsourcelines`, and the number of source lines. -/
structure ModFunction where
  name : String
  srow : Nat
  numLines : Nat
deriving DecidableEq

/-- The candidate points `_select_points` builds from the module's functions
(`Point(first_row=srow, last_row=srow+len(source_lines)-1, func=func)`). -/
def discoveredPoints (fns : List ModFunction) : List Point :=
  fns.map (fun f => ⟨f.srow, f.srow + f.numLines - 1, f.name⟩)

/-- Embeds `_select_points` (icontract_hypothesis.py lines 346-366).  The
source builds the candidate points, leaves the include/exclude application as
TODO comments, and returns `[], []` — the built points and both spec lists are
discarded. -/
def select_points (modFunctions : List ModFunction)
    (includeSpecs excludeSpecs : List PointSpec) : List Point × List String :=
  let points := discoveredPoints modFunctions
  -- TODO comments in the source; `points`, `includeSpecs` and `excludeSpecs`
  -- are unused from here on, exactly as in the source.
  let _ := points
  let _ := includeSpecs
  let _ := excludeSpecs
  ([], [])

/-- Modelled from the spec: the intended matching of a line-range spec against
a function point — "inclusion holds iff `[spec.first,spec.last]` intersects
`[point.firstRow,point.lastRow]` (non-empty intersection test)".  The
implementation of this matching is missing from `_select_points` (only TODO
comments stand in its place). -/
def rangesOverlap (specFirst specLast firstRow lastRow : Nat) : Bool :=
  specFirst ≤ lastRow && firstRow ≤ specLast

/-- Modelled from the spec: whether a point spec matches a function point — a
pattern matches by name (through the external `re` matcher `reMatch`), a line
range by overlap of spans.  Missing from `_select_points`. -/
def specMatchesPoint (reMatch : String → String → Bool) (s : PointSpec) (p : Point) : Bool :=
  match s with
  | .lineRange f l => rangesOverlap f l p.firstRow p.lastRow
  | .pattern pat => reMatch pat p.name

/-- Modelled from the spec: the selection rule — "(callables matching ≥1
include spec, or 'no include specs supplied' meaning 'match all') MINUS
(callables matching ≥1 exclude spec) MINUS (callables carrying a body-level
'disable' directive)".  Missing from `_select_points`. -/
def specSelectPoints (reMatch : String → String → Bool) (points : List Point)
    (disabled : Point → Bool) (includeSpecs excludeSpecs : List PointSpec) : List Point :=
  points.filter (fun p =>
    (includeSpecs.isEmpty || includeSpecs.any (fun s => specMatchesPoint reMatch s p)) &&
    !(excludeSpecs.any (fun s => specMatchesPoint reMatch s p)) && !(disabled p))

/-- `c` is the first character of a Python identifier
(`[a-zA-Z_]` in `_SETTING_STATEMENT_RE`). -/
def isIdentStart (c : Char) : Bool :=
  ('a' ≤ c && c ≤ 'z') || ('A' ≤ c && c ≤ 'Z') || c == '_'

/-- `c` is a later character of a Python identifier
(`[a-zA-Z_0-9]` in `_SETTING_STATEMENT_RE`). -/
def isIdentChar (c : Char) : Bool :=
  isIdentStart c || isPyDigit c

/-- Embeds `_SETTING_STATEMENT_RE =
`^(?P<identifier>[a-zA-Z_][a-zA-Z_0-9]*)\s*=\s*(?P<value>.*)\s*$``
(icontract_hypothesis.py line 125): on success, the `identifier` and `value`
groups.  The greedy `.*` (which does not cross a newline) captures the rest of
the first line including its trailing spaces; the final `\s*$` then requires
everything after that line to be whitespace. -/
def settingStatementMatch (stmt : String) : Option (String × String) :=
  match stmt.data with
  | [] => none
  | c :: cs =>
    if isIdentStart c then
      let p := cs.span isIdentChar
      let identifier := String.mk (c :: p.1)
      match dropSpaces p.2 with
      | '=' :: r2 =>
        let r3 := dropSpaces r2
        let q := r3.span (fun ch => ch != '\n')
        if q.2.all isPySpace then some (identifier, String.mk q.1) else none
      | _ => none
    else none

/-- Embeds `ParamsTest` (icontract_hypothesis.py lines 117-122); `α` is the
type of JSON values produced by the external `json` module, and the setting
mapping is an ordered dictionary represented as an association list. -/
structure ParamsTest (α : Type) where
  path : String
  setting : List (String × α)

/-- The pattern text interpolated into the error message
(`_SETTING_STATEMENT_RE.pattern`). -/
def settingStatementPattern : String :=
  "^(?P<identifier>[a-zA-Z_][a-zA-Z_0-9]*)\\s*=\\s*(?P<value>.*)\\s*$"

/-- Error message of `_parse_test_params` for a statement that does not match
the statement regex; `i` is the 0-based position of the statement. -/
def invalidSettingStatementError (i : Nat) (stmt : String) : String :=
  "Invalid setting statement " ++ toString (i + 1) ++ ". Expected statement to match "
    ++ settingStatementPattern ++ ", but got: " ++ stmt

/-- Error message of `_parse_test_params` for a value `json.loads` rejects. -/
def failedSettingValueError (identifier err : String) : String :=
  "Failed to parse the value of the setting " ++ identifier ++ ": " ++ err

/-- `setting[identifier] = value` on an ordered dictionary represented as an
association list: overwrite in place if present, else append. -/
def dictInsert {α : Type} (m : List (String × α)) (k : String) (v : α) : List (String × α) :=
  if m.any (fun p => p.1 == k) then m.map (fun p => if p.1 == k then (k, v) else p)
  else m ++ [(k, v)]

/-- The loop of `_parse_test_params` over the setting statements, with the
running 0-based index `i` and the ordered dictionary built so far; the source
returns on the first failing statement. -/
def parseSettingStatements {α : Type} (jsonLoads : String → Except String α) :
    Nat → List (String × α) → List String → Except String (List (String × α))
  | _, acc, [] => .ok acc
  | i, acc, stmt :: rest =>
    match settingStatementMatch stmt with
    | none => .error (invalidSettingStatementError i stmt)
    | some (identifier, valueStr) =>
      match jsonLoads valueStr with
      | .error err => .error (failedSettingValueError identifier err)
      | .ok v => parseSettingStatements jsonLoads (i + 1) (dictInsert acc identifier v) rest

/-- Embeds `_parse_test_params` (icontract_hypothesis.py lines 128-163).
`jsonLoads` models the external `json.loads`; `settingArg` models
`args.setting` (`none` for `None`).  Returns `(parsed parameters, errors)`. -/
def parse_test_params {α : Type} (jsonLoads : String → Except String α) (path : String)
    (settingArg : Option (List String)) : Option (ParamsTest α) × List String :=
  match settingArg with
  | none => (some ⟨path, []⟩, [])
  | some stmts =>
    match parseSettingStatements jsonLoads 0 [] stmts with
    | .error err => (none, [err])
    | .ok setting => (some ⟨path, setting⟩, [])

/-- A setting statement that passes both checks of `_parse_test_params`: it
matches the statement regex and its value portion parses as JSON. -/
def settingStatementOk {α : Type} (jsonLoads : String → Except String α) (stmt : String) :
    Prop :=
  ∃ iv : String × String,
    settingStatementMatch stmt = some iv ∧ ∃ v, jsonLoads iv.2 = Except.ok v

/-- Models the external `json.loads` collaborator on the value texts exercised
below: accepts a whitespace-padded nonempty run of decimal digits (an integer
literal) and rejects everything else with CPython's leading error message. -/
def jsonLoadsModel (s : String) : Except String Unit :=
  let cs := dropSpaces s.data
  let p := cs.span isPyDigit
  if !p.1.isEmpty && (dropSpaces p.2).isEmpty then .ok ()
  else .error "Expecting value: line 1 column 1 (char 0)"

/-- Modelled from the spec: `make_assume_preconditions` of
`icontract.integration.with_hypothesis` (the package `__init__`, absent from
the sources; only its tests and callers are present).  From the callable's
precondition groups — own first, then one group per ancestor level — it builds
the accept predicate: "true iff any group's conjunction is true.  If the
callable declares no predicates at any level, accept is the constant-true
predicate." -/
def acceptPreconditions {α : Type} (groups : List (List (α → Bool))) (x : α) : Bool :=
  if groups.isEmpty then true
  else groups.any (fun g => g.all (fun p => p x))

/-- A Python type as `_from_type` (patched_from_type.py) inspects it after the
typing-module special cases: its `repr`, the outcome of the registered-strategy
lookups, and the reflection facts the tail of `_from_type` branches on. -/
structure PyType where
  /-- `repr(thing)`, interpolated into the error messages via `%r`. -/
  reprName : String
  /-- `types._global_type_lookup[thing]` when registered (as an opaque tag). -/
  registeredStrategy : Option String
  /-- The non-empty strategies registered for proper subtypes of the type. -/
  subtypeStrategies : List String
  /-- `issubclass(thing, enum.Enum)`. -/
  isEnum : Bool
  /-- `required_args(thing)`: required constructor parameters. -/
  requiredArgs : List String
  /-- The keys of `get_type_hints(thing)`. -/
  typeHints : List String
  /-- `attr.has(thing)`. -/
  hasAttrs : Bool
  /-- `is_typed_named_tuple(thing)`. -/
  isTypedNamedTuple : Bool
  /-- `isabstract(thing)`. -/
  isAbstract : Bool
  /-- The names of `thing.__subclasses__()`. -/
  subclassNames : List String
deriving DecidableEq

/-- The strategies the tail of `_from_type` can return. -/
inductive PyStrategy where
  | registered (tag : String)
  | oneOfRegisteredSubtypes (tags : List String)
  | sampledFromEnum (reprName : String)
  | buildsWithPreconditions (reprName : String)
  | sampledSubclassesFlatmapFromType (subclassNames : List String)
deriving DecidableEq

/-- `ResolutionFailed` message for a type whose required constructor parameters
lack type information (patched_from_type.py lines 255-258). -/
def couldNotResolveError (reprName : String) : String :=
  "Could not resolve " ++ reprName ++ " to a strategy; consider using register_type_strategy"

/-- `ResolutionFailed` message for an abstract type without subclasses
(patched_from_type.py lines 266-269). -/
def abstractNoSubclassesError (reprName : String) : String :=
  "Could not resolve " ++ reprName ++ " to a strategy, because it is an abstract type "
    ++ "without any subclasses. Consider using register_type_strategy"

/-- Embeds the tail of `_from_type` (patched_from_type.py lines 202-270): the
registered-strategy lookup, the registered-subtype union, the enum case, the
missing-type-hints failure, `builds_with_preconditions` for concrete types, and
the abstract-type cases.  A raised `ResolutionFailed` is an `.error`. -/
def from_type_resolve (t : PyType) : Except String PyStrategy :=
  match t.registeredStrategy with
  | some tag => .ok (.registered tag)
  | none =>
    if !t.subtypeStrategies.isEmpty then .ok (.oneOfRegisteredSubtypes t.subtypeStrategies)
    else if t.isEnum then .ok (.sampledFromEnum t.reprName)
    else if !t.requiredArgs.isEmpty
        && !(t.requiredArgs.all (fun a => t.typeHints.contains a)
             || t.hasAttrs || t.isTypedNamedTuple) then
      .error (couldNotResolveError t.reprName)
    else if !t.isAbstract then .ok (.buildsWithPreconditions t.reprName)
    else if t.subclassNames.isEmpty then .error (abstractNoSubclassesError t.reprName)
    else .ok (.sampledSubclassesFlatmapFromType t.subclassNames)

/-- The value `from_type` returns: the resolved strategy directly, or the
`LazyStrategy(deferred(lambda: _from_type(thing)))` fallback that re-runs the
resolution only when a value is drawn. -/
inductive WrappedStrategy where
  | direct (s : PyStrategy)
  | lazyDeferredFromType (t : PyType)
deriving DecidableEq

/-- Embeds the public `from_type` (patched_from_type.py lines 124-132):
`try: return _from_type(thing) except Exception: return LazyStrategy(...)`.
The underlying resolution is a parameter so the wrapper's behaviour is proved
for every resolution outcome; its total return type records that no exception
escapes. -/
def from_type_patched (resolve : PyType → Except String PyStrategy) (t : PyType) :
    WrappedStrategy :=
  match resolve t with
  | .ok s => .direct s
  | .error _ => .lazyDeferredFromType t

/-- Drawing the first value from a wrapped strategy: the deferred branch runs
`_from_type` again at draw time, surfacing its error only then. -/
def drawFromWrapped (resolve : PyType → Except String PyStrategy) :
    WrappedStrategy → Except String PyStrategy
  | .direct s => .ok s
  | .lazyDeferredFromType t => resolve t

/-- `as` is a character-wise prefix of `bs`. -/
def charsArePrefix : List Char → List Char → Bool
  | [], _ => true
  | _ :: _, [] => false
  | a :: as, b :: bs => a == b && charsArePrefix as bs

/-- Models the external `re` name matching for the two literal patterns of the
end-to-end selection example; on newline-free identifiers, `^testable_.*$`
matches exactly the names starting with `testable_`, and likewise for
`^untestable_.*$`. -/
def sampleReMatch (pat name : String) : Bool :=
  if pat == "^testable_.*$" then charsArePrefix "testable_".data name.data
  else if pat == "^untestable_.*$" then charsArePrefix "untestable_".data name.data
  else false

/-- The functions of `tests/integration/with_hypothesis/sample_module.py` in
the order `dir(mod)` yields them (alphabetical), with the spans
`inspect.getsourcelines` reports (decorators included). -/
def sampleModuleFunctions : List ModFunction :=
  [⟨"testable_some_func", 6, 3⟩,
   ⟨"untestable_another_func", 17, 3⟩,
   ⟨"untestable_some_func", 11, 5⟩,
   ⟨"untestable_yet_another_func", 22, 2⟩]

/-- Modelled from the spec: in the sample module,
`untestable_yet_another_func` is the function disabled by the
`# pyicontract-hypothesis: disable` directive. -/
def sampleDisabled (p : Point) : Bool :=
  p.name == "untestable_yet_another_func"

end IcontractHypothesis

namespace IcontractHypothesis

/-! ## Theorems -/

/-- C1: the precondition filter accepts an argument tuple iff at least one
precondition group's conjunction holds (OR over groups of AND over each group's
predicates); with no predicates at any level the filter is constant-true; and
for the subclass example with own group `{x%7==0}` and ancestor group
`{x%3==0}`, the inputs `{-14,-3,5,7,9}` are accepted exactly as
`{-14,-3,7,9}` and `5` is rejected. -/
theorem accept_preconditions_or_of_ands :
    (∀ (α : Type) (groups : List (List (α → Bool))) (x : α), groups ≠ [] →
      (acceptPreconditions groups x = true ↔ ∃ g ∈ groups, ∀ p ∈ g, p x = true))
    ∧ (∀ (α : Type) (x : α), acceptPreconditions ([] : List (List (α → Bool))) x = true)
    ∧ ([-14, -3, 5, 7, 9].filter
        (acceptPreconditions [[fun x : Int => x % 7 == 0], [fun x : Int => x % 3 == 0]])
        = [-14, -3, 7, 9]) := by
  refine ⟨?_, ?_, ?_⟩
  · intro α groups x h
    cases groups with
    | nil => exact absurd rfl h
    | cons g gs =>
      simp [acceptPreconditions, List.any_eq_true, List.all_eq_true]
  · intro α x
    rfl
  · decide

/-- Witness for C1 at a concrete group list and input. -/
theorem accept_preconditions_or_of_ands_witness :
    acceptPreconditions [[fun x : Int => x % 3 == 0]] 9 = true :=
  (accept_preconditions_or_of_ands.1 Int [[fun x : Int => x % 3 == 0]] 9
      (List.cons_ne_nil _ _)).mpr
    ⟨[fun x : Int => x % 3 == 0], List.mem_singleton.mpr rfl, by
      intro p hp
      rw [List.mem_singleton] at hp
      subst hp
      decide⟩

/-- C2 (code bug): `_select_points` returns the empty selection unconditionally
— the built candidate points and the include/exclude specs are discarded (only
TODO comments stand where the matching should be) — so a function point whose
span `[1,3]` overlaps the line-range spec `[2,5]` is nonetheless not selected,
although the intersection is non-empty. -/
theorem select_points_ignores_overlapping_range :
    select_points [⟨"some_func", 1, 3⟩] [.lineRange 2 5] [] = ([], [])
    ∧ rangesOverlap 2 5 1 3 = true
    ∧ discoveredPoints [⟨"some_func", 1, 3⟩] = [⟨1, 3, "some_func"⟩] := by
  decide

/-- C3 (code bug): on the sample module with include `^testable_.*$` and
exclude `^untestable_.*$`, the code's `_select_points` yields the empty
selection, while the selection rule modelled from the spec yields exactly
`{testable_some_func}`. -/
theorem select_points_empty_on_sample_module :
    (select_points sampleModuleFunctions
        [.pattern "^testable_.*$"] [.pattern "^untestable_.*$"]).1 = []
    ∧ specSelectPoints sampleReMatch (discoveredPoints sampleModuleFunctions) sampleDisabled
        [.pattern "^testable_.*$"] [.pattern "^untestable_.*$"]
      = [⟨6, 8, "testable_some_func"⟩] := by
  decide

/-- C5: whenever the line-range regex recognizes a text as a range whose last
line is smaller than its first line, `_parse_point_spec` constructs no point
spec and returns the parse error naming the exact offending text. -/
theorem parse_point_spec_last_lt_first :
    ∀ (reCompile : String → Except String Unit) (t : String) (f l : Nat),
      lineRangeMatch t = some (f, some l) → l < f →
      parse_point_spec reCompile t = (none, [lineRangeErrorName t]) := by
  intro reCompile t f l hm hlt
  unfold parse_point_spec
  rw [hm]
  have hf : ¬ f ≤ 0 := by omega
  simp [hf, hlt]

/-- Witness for C5 at the text of the repository's own test
(`TestParsingOfPointSpecs.test_invalid_line_range`). -/
theorem parse_point_spec_last_lt_first_witness :
    parse_point_spec reCompileOk "345-123" = (none, [lineRangeErrorName "345-123"]) :=
  parse_point_spec_last_lt_first reCompileOk "345-123" 345 123 rfl (by decide)

/-- A run accepted by the code's `first` group is nonempty. -/
theorem validFirstRun_not_isEmpty {ds : List Char} (h : validFirstRun ds = true) :
    ds.isEmpty = false := by
  cases ds with
  | nil => simp [validFirstRun] at h
  | cons c cs => rfl

/-- A run accepted by the code's `last` group is nonempty. -/
theorem validLastRun_not_isEmpty {ds : List Char} (h : validLastRun ds = true) :
    ds.isEmpty = false := by
  cases ds with
  | nil => simp [validLastRun] at h
  | cons c cs => rfl

/-- If the tail regex matches with a stricter `last` test, it matches with a
weaker one. -/
theorem matchLineTail_mono {v v' : List Char → Bool}
    (hvv : ∀ ds, v ds = true → v' ds = true) {rest : List Char}
    (h : (matchLineTail v rest).isSome = true) :
    (matchLineTail v' rest).isSome = true := by
  unfold matchLineTail at h ⊢
  split at h
  · simp
  · split at h
    · rename_i hc
      rw [if_pos hc]
      split at h
      · rename_i hcond
        rw [Bool.and_eq_true] at hcond
        rw [if_pos (by rw [Bool.and_eq_true]; exact ⟨hvv _ hcond.1, hcond.2⟩)]
        rfl
      · simp at h
    · simp at h

/-- The code's line-range regex accepts only texts the spec's stated grammar
`^\s*(\d+)(\s*-\s*(\d+))?\s*$` also accepts. -/
theorem lineRangeMatch_isSome_spec {t : String}
    (h : (lineRangeMatch t).isSome = true) :
    (specLineGrammarMatch t).isSome = true := by
  unfold lineRangeMatch at h
  unfold specLineGrammarMatch
  unfold matchLineShape at h ⊢
  split at h
  · rename_i hv
    rw [if_pos (by
      show (!((dropSpaces t.data).span isPyDigit).1.isEmpty) = true
      rw [validFirstRun_not_isEmpty hv]
      rfl)]
    have hmono : ∀ ds, validLastRun ds = true → (!ds.isEmpty) = true := by
      intro ds hds
      rw [validLastRun_not_isEmpty hds]
      rfl
    split at h
    · rename_i lastOpt heq
      have hs : (matchLineTail (fun ds => !ds.isEmpty)
          ((dropSpaces t.data).span isPyDigit).2).isSome = true :=
        matchLineTail_mono hmono (by rw [heq]; rfl)
      split
      · rfl
      · rename_i heq2
        rw [heq2] at hs
        simp at hs
    · simp at h
  · simp at h

/-- C4 counterexample: the text `"00"` matches the grammar the claim states
(`^\s*(\d+)(\s*-\s*(\d+))?\s*$`), yet `_parse_point_spec` does not interpret it
as a line spec — it compiles it as a regular-expression pattern, because
`_LINE_RANGE_RE` forbids a multi-digit run with a leading zero. -/
theorem point_spec_grammar_counterexample :
    (specLineGrammarMatch "00").isSome = true
    ∧ parse_point_spec reCompileOk "00" = (some (.pattern "00"), []) := by
  constructor
  · rfl
  · rfl

/-- C4 (amended): a point-spec text is interpreted as a line spec (single line
`n` meaning `[n,n]`, or an inclusive range) exactly when it matches
`_LINE_RANGE_RE`'s grammar
`^\s*([0-9]|[1-9][0-9]+)(\s*-\s*([1-9]|[1-9][0-9]+))?\s*$`; every text not
matching that grammar is compiled as a regular-expression pattern over callable
names; and that grammar only accepts texts the spec's stated `\d+` grammar also
accepts. -/
theorem parse_point_spec_grammar :
    ∀ (reCompile : String → Except String Unit) (t : String),
      (lineRangeMatch t = none → parse_point_spec reCompile t = patternBranch reCompile t)
      ∧ (∀ n, lineRangeMatch t = some (n, none) → 1 ≤ n →
          parse_point_spec reCompile t = (some (.lineRange n n), []))
      ∧ (∀ f l, lineRangeMatch t = some (f, some l) → 1 ≤ f → f ≤ l →
          parse_point_spec reCompile t = (some (.lineRange f l), []))
      ∧ (∀ r, parse_point_spec reCompile t = (some (.pattern r), []) →
          lineRangeMatch t = none ∧ r = t)
      ∧ ((lineRangeMatch t).isSome = true → (specLineGrammarMatch t).isSome = true) := by
  intro reCompile t
  refine ⟨?_, ?_, ?_, ?_, fun h => lineRangeMatch_isSome_spec h⟩
  · intro h
    unfold parse_point_spec
    rw [h]
  · intro n h hn
    unfold parse_point_spec
    rw [h]
    have : ¬ n ≤ 0 := by omega
    simp [this]
  · intro f l h hf hfl
    unfold parse_point_spec
    rw [h]
    have h1 : ¬ f ≤ 0 := by omega
    have h2 : ¬ l < f := by omega
    simp [h1, h2]
  · intro r h
    cases hm : lineRangeMatch t with
    | none =>
      refine ⟨rfl, ?_⟩
      unfold parse_point_spec at h
      rw [hm] at h
      unfold patternBranch at h
      cases hre : reCompile t with
      | ok a =>
        rw [hre] at h
        simp at h
        exact h.symm
      | error err =>
        rw [hre] at h
        simp at h
    | some p =>
      exfalso
      unfold parse_point_spec at h
      rw [hm] at h
      obtain ⟨f, lastOpt⟩ := p
      cases lastOpt with
      | none =>
        by_cases hf : f ≤ 0 <;> simp [hf] at h
      | some l =>
        by_cases hf : f ≤ 0
        · simp [hf] at h
        · by_cases hl : l < f <;> simp [hf, hl] at h

/-- Witness for C4 at the texts of the repository's own tests: `123` is a
single-line spec, `34-65` a range spec, and `^do_.*$` a pattern. -/
theorem parse_point_spec_grammar_witness :
    parse_point_spec reCompileOk "123" = (some (.lineRange 123 123), [])
    ∧ parse_point_spec reCompileOk "34-65" = (some (.lineRange 34 65), [])
    ∧ parse_point_spec reCompileOk "^do_.*$" = (some (.pattern "^do_.*$"), []) :=
  ⟨(parse_point_spec_grammar reCompileOk "123").2.1 123 rfl (by decide),
   (parse_point_spec_grammar reCompileOk "34-65").2.2.1 34 65 rfl (by decide) (by decide),
   (parse_point_spec_grammar reCompileOk "^do_.*$").1 rfl⟩

/-- The error component of one collection step appends the spec's errors. -/
theorem collectStep_snd (reCompile : String → Except String Unit)
    (acc : List PointSpec × List String) (t : String) :
    (collectStep reCompile acc t).2 = acc.2 ++ (parse_point_spec reCompile t).2 := by
  unfold collectStep
  cases hp : parse_point_spec reCompile t with
  | mk s? errs =>
    cases s? with
    | none =>
      cases errs <;> simp
    | some s =>
      cases errs <;> simp

/-- Unfolding lemma for `allSpecErrors`. -/
theorem allSpecErrors_cons (reCompile : String → Except String Unit) (t : String)
    (ts : List String) :
    allSpecErrors reCompile (t :: ts)
      = (parse_point_spec reCompile t).2 ++ allSpecErrors reCompile ts := rfl

/-- The error component of the `_parse_general_params` loop is the
concatenation, in input order, of every spec's errors. -/
theorem collectSpecs_foldl_snd (reCompile : String → Except String Unit) :
    ∀ (ts : List String) (acc : List PointSpec × List String),
      (ts.foldl (collectStep reCompile) acc).2 = acc.2 ++ allSpecErrors reCompile ts := by
  intro ts
  induction ts with
  | nil =>
    intro acc
    simp [allSpecErrors]
  | cons t ts ih =>
    intro acc
    rw [List.foldl_cons, ih, collectStep_snd, allSpecErrors_cons, List.append_assoc]

/-- The errors `collectSpecs` reports are exactly all the specs' errors. -/
theorem collectSpecs_snd (reCompile : String → Except String Unit) (ts : List String) :
    (collectSpecs reCompile ts).2 = allSpecErrors reCompile ts := by
  unfold collectSpecs
  rw [collectSpecs_foldl_snd]
  rfl

/-- Every error of a member text is reported. -/
theorem mem_allSpecErrors (reCompile : String → Except String Unit) {t : String}
    {ts : List String} (ht : t ∈ ts) {e : String}
    (he : e ∈ (parse_point_spec reCompile t).2) : e ∈ allSpecErrors reCompile ts := by
  induction ts with
  | nil => cases ht
  | cons u us ih =>
    rw [List.mem_cons] at ht
    rw [allSpecErrors_cons, List.mem_append]
    cases ht with
    | inl h =>
      subst h
      exact Or.inl he
    | inr h => exact Or.inr (ih h)

/-- C6: if any include or exclude point spec is invalid, `_parse_general_params`
returns no parameters at all — none of the valid specs are applied — and the
reported error list is exactly the concatenation, in input order (includes
before excludes, each in order), of the errors of every offending spec, so each
error is attributable to its spec. -/
theorem parse_general_params_fail_fast :
    ∀ (reCompile : String → Except String Unit) (incs excs : List String),
      (∃ t ∈ incs ++ excs, (parse_point_spec reCompile t).2 ≠ []) →
      (parse_general_params reCompile (some incs) (some excs)).1 = none
      ∧ (parse_general_params reCompile (some incs) (some excs)).2
          = allSpecErrors reCompile incs ++ allSpecErrors reCompile excs := by
  intro reCompile incs excs h
  obtain ⟨t, ht, hne⟩ := h
  have herr : allSpecErrors reCompile incs ++ allSpecErrors reCompile excs ≠ [] := by
    obtain ⟨e, he⟩ := List.exists_mem_of_ne_nil _ hne
    rw [List.mem_append] at ht
    cases ht with
    | inl hmem =>
      exact List.ne_nil_of_mem
        (List.mem_append.mpr (Or.inl (mem_allSpecErrors reCompile hmem he)))
    | inr hmem =>
      exact List.ne_nil_of_mem
        (List.mem_append.mpr (Or.inr (mem_allSpecErrors reCompile hmem he)))
  have hco : (optCollect reCompile (some incs)).2 ++ (optCollect reCompile (some excs)).2
      = allSpecErrors reCompile incs ++ allSpecErrors reCompile excs := by
    simp only [optCollect]
    rw [collectSpecs_snd, collectSpecs_snd]
  unfold parse_general_params
  rw [hco]
  rw [if_neg (by
    intro hcontra
    exact herr (List.isEmpty_iff.mp hcontra))]
  exact ⟨rfl, rfl⟩

/-- Witness for C6: one invalid range spec among the includes aborts the
selection with no parameters. -/
theorem parse_general_params_fail_fast_witness :
    (parse_general_params reCompileOk (some ["345-123"]) (some ["^foo$"])).1 = none
    ∧ (parse_general_params reCompileOk (some ["345-123"]) (some ["^foo$"])).2
        = allSpecErrors reCompileOk ["345-123"] ++ allSpecErrors reCompileOk ["^foo$"] :=
  parse_general_params_fail_fast reCompileOk ["345-123"] ["^foo$"]
    ⟨"345-123", by decide, by decide⟩

/-- Statements passing both checks are consumed, advancing the index by one
each and threading the ordered dictionary. -/
theorem parseSettingStatements_append_ok {α : Type} (jsonLoads : String → Except String α) :
    ∀ (pre : List String), (∀ s ∈ pre, settingStatementOk jsonLoads s) →
      ∀ (i : Nat) (acc : List (String × α)) (rest : List String),
        ∃ acc2, parseSettingStatements jsonLoads i acc (pre ++ rest)
          = parseSettingStatements jsonLoads (i + pre.length) acc2 rest := by
  intro pre
  induction pre with
  | nil =>
    intro _ i acc rest
    exact ⟨acc, by simp⟩
  | cons s pre ih =>
    intro hok i acc rest
    obtain ⟨⟨identifier, valueStr⟩, hm, v, hv⟩ := hok s (List.mem_cons_self s pre)
    have hv2 : jsonLoads valueStr = Except.ok v := hv
    obtain ⟨acc2, heq⟩ :=
      ih (fun u hu => hok u (List.mem_cons_of_mem s hu)) (i + 1)
        (dictInsert acc identifier v) rest
    refine ⟨acc2, ?_⟩
    rw [List.cons_append]
    have hstep : parseSettingStatements jsonLoads i acc (s :: (pre ++ rest))
        = parseSettingStatements jsonLoads (i + 1) (dictInsert acc identifier v)
            (pre ++ rest) := by
      conv_lhs => rw [parseSettingStatements]
      simp only [hm, hv2]
    rw [hstep, heq]
    simp only [List.length_cons]
    congr 1
    omega

/-- C7 counterexample: a statement whose value fails the JSON check aborts the
settings parse with an error naming the setting's identifier but not the
statement's index — the very same error is produced whether the offending
statement is the first or the second one, so the error cannot identify the
statement by its index. -/
theorem settings_error_not_indexed :
    parse_test_params jsonLoadsModel "some_module.py" (some ["a = nope"])
      = (none, [failedSettingValueError "a" "Expecting value: line 1 column 1 (char 0)"])
    ∧ parse_test_params jsonLoadsModel "some_module.py"
        (some ["max_examples = 500", "a = nope"])
      = (none, [failedSettingValueError "a" "Expecting value: line 1 column 1 (char 0)"]) :=
  ⟨rfl, rfl⟩

/-- C7 (amended): every settings statement must match
`^[A-Za-z_]\w*\s*=\s*.*$` with the value portion parseable as JSON; the first
statement failing either check aborts the whole settings parse — no
`ParamsTest` is returned and the single reported error concerns that
statement — where a statement failing the grammar check is identified by its
1-based index, while a statement whose value fails the JSON check is identified
by the setting's identifier. -/
theorem parse_test_params_abort :
    ∀ (α : Type) (jsonLoads : String → Except String α) (path : String)
      (pre : List String) (stmt : String) (post : List String),
      (∀ s ∈ pre, settingStatementOk jsonLoads s) →
      ((settingStatementMatch stmt = none →
          parse_test_params jsonLoads path (some (pre ++ stmt :: post))
            = (none, [invalidSettingStatementError pre.length stmt]))
        ∧ (∀ identifier valueStr err,
            settingStatementMatch stmt = some (identifier, valueStr) →
            jsonLoads valueStr = .error err →
            parse_test_params jsonLoads path (some (pre ++ stmt :: post))
              = (none, [failedSettingValueError identifier err]))) := by
  intro α jsonLoads path pre stmt post hok
  obtain ⟨acc2, heq⟩ :=
    parseSettingStatements_append_ok jsonLoads pre hok 0 [] (stmt :: post)
  rw [Nat.zero_add] at heq
  constructor
  · intro hm
    have hstop : parseSettingStatements jsonLoads pre.length acc2 (stmt :: post)
        = .error (invalidSettingStatementError pre.length stmt) := by
      conv_lhs => rw [parseSettingStatements]
      simp only [hm]
    simp only [parse_test_params]
    rw [heq, hstop]
  · intro identifier valueStr err hm hj
    have hstop : parseSettingStatements jsonLoads pre.length acc2 (stmt :: post)
        = .error (failedSettingValueError identifier err) := by
      conv_lhs => rw [parseSettingStatements]
      simp only [hm, hj]
    simp only [parse_test_params]
    rw [heq, hstop]

/-- Witness for C7 at a concrete statement list: the second statement's value
fails the JSON check after a first statement that passes both checks. -/
theorem parse_test_params_abort_witness :
    parse_test_params jsonLoadsModel "some_module.py"
        (some (["max_examples = 500"] ++ "a = nope" :: []))
      = (none, [failedSettingValueError "a" "Expecting value: line 1 column 1 (char 0)"]) :=
  (parse_test_params_abort Unit jsonLoadsModel "some_module.py"
      ["max_examples = 500"] "a = nope" []
      (by
        intro s hs
        rw [List.mem_singleton] at hs
        subst hs
        exact ⟨("max_examples", "500"), rfl, ⟨(), rfl⟩⟩)).2
    "a" "nope" "Expecting value: line 1 column 1 (char 0)" rfl rfl

/-- C8: for a type with no registered strategy (and no registered subtype
strategies, and not an enum), `_from_type` fails with a `ResolutionFailed`
naming the offending type when required constructor parameters lack type
annotations, or when the type is abstract with no subclasses; an abstract type
that does have subclasses is instead resolved as a choice over those
subclasses, each routed back through `from_type` when drawn. -/
theorem from_type_resolution_errors :
    ∀ t : PyType,
      t.registeredStrategy = none → t.subtypeStrategies = [] → t.isEnum = false →
      (((!t.requiredArgs.isEmpty
          && !(t.requiredArgs.all (fun a => t.typeHints.contains a)
               || t.hasAttrs || t.isTypedNamedTuple)) = true) →
        from_type_resolve t = .error (couldNotResolveError t.reprName))
      ∧ (((!t.requiredArgs.isEmpty
          && !(t.requiredArgs.all (fun a => t.typeHints.contains a)
               || t.hasAttrs || t.isTypedNamedTuple)) = false) →
          t.isAbstract = true →
          ((t.subclassNames = [] →
            from_type_resolve t = .error (abstractNoSubclassesError t.reprName))
          ∧ (t.subclassNames ≠ [] →
            from_type_resolve t
              = .ok (.sampledSubclassesFlatmapFromType t.subclassNames)))) := by
  intro t hreg hsub henum
  unfold from_type_resolve
  constructor
  · intro hG
    simp only [hreg, hsub, henum]
    simp only [hG]
    simp
  · intro hG habs
    constructor
    · intro hnil
      simp only [hreg, hsub, henum, habs]
      simp only [hG]
      simp [hnil]
    · intro hne
      cases hsc : t.subclassNames with
      | nil => exact absurd hsc hne
      | cons a as =>
        simp only [hreg, hsub, henum, habs, hsc]
        simp only [hG]
        simp

/-- Witness for C8: a concrete type with an unannotated required parameter, a
concrete abstract type without subclasses, and a concrete abstract type with
two subclasses. -/
theorem from_type_resolution_errors_witness :
    from_type_resolve ⟨"<class 'A'>", none, [], false, ["x"], [], false, false, false, []⟩
      = .error (couldNotResolveError "<class 'A'>")
    ∧ from_type_resolve ⟨"<class 'B'>", none, [], false, [], [], false, false, true, []⟩
      = .error (abstractNoSubclassesError "<class 'B'>")
    ∧ from_type_resolve
        ⟨"<class 'C'>", none, [], false, [], [], false, false, true, ["C1", "C2"]⟩
      = .ok (.sampledSubclassesFlatmapFromType ["C1", "C2"]) :=
  ⟨(from_type_resolution_errors _ rfl rfl rfl).1 (by decide),
   ((from_type_resolution_errors _ rfl rfl rfl).2 (by decide) rfl).1 rfl,
   ((from_type_resolution_errors _ rfl rfl rfl).2 (by decide) rfl).2 (by decide)⟩

/-- A character list not containing a newline reports no newline by `any`. -/
theorem any_newline_eq_false {cs : List Char} (h : '\n' ∉ cs) :
    cs.any (fun ch => ch == '\n') = false := by
  cases hany : cs.any (fun ch => ch == '\n') with
  | false => rfl
  | true =>
    exfalso
    rw [List.any_eq_true] at hany
    obtain ⟨x, hx, hb⟩ := hany
    rw [beq_iff_eq] at hb
    subst hb
    exact h hx

/-- C9: when no exclude specification is supplied on the command line, the
exclude argument defaults to the single pattern `^_.*$`; the parsed general
parameters then carry exactly that one exclude pattern; and on newline-free
names that pattern matches exactly the names beginning with an underscore. -/
theorem default_exclude_underscore :
    ∀ (reCompile : String → Except String Unit), reCompile "^_.*$" = .ok () →
      (effectiveExcludeArg none = ["^_.*$"]
      ∧ parse_general_params reCompile none (some (effectiveExcludeArg none))
          = (some ⟨[], [.pattern "^_.*$"]⟩, []))
      ∧ ∀ (name : String), '\n' ∉ name.data →
          (matchesDefaultExcludePattern name = true ↔ name.data.head? = some '_') := by
  intro reCompile hre
  constructor
  · refine ⟨rfl, ?_⟩
    have hp : parse_point_spec reCompile "^_.*$" = (some (.pattern "^_.*$"), []) := by
      unfold parse_point_spec
      rw [show lineRangeMatch "^_.*$" = none from rfl]
      unfold patternBranch
      rw [hre]
    have hc : collectSpecs reCompile ["^_.*$"] = ([.pattern "^_.*$"], []) := by
      unfold collectSpecs
      rw [List.foldl_cons, List.foldl_nil]
      unfold collectStep
      simp [hp]
    unfold parse_general_params
    simp only [optCollect]
    rw [show effectiveExcludeArg none = ["^_.*$"] from rfl, hc]
    rfl
  · intro name hnl
    cases hd : name.data with
    | nil =>
      unfold matchesDefaultExcludePattern
      rw [hd]
      simp
    | cons c cs =>
      rw [hd, List.mem_cons] at hnl
      push_neg at hnl
      have hcs := any_newline_eq_false hnl.2
      unfold matchesDefaultExcludePattern
      rw [hd]
      simp [hcs]

/-- Witness for C9 at the always-succeeding `re.compile` model and the concrete
name `_secret`. -/
theorem default_exclude_underscore_witness :
    parse_general_params reCompileOk none (some (effectiveExcludeArg none))
      = (some ⟨[], [.pattern "^_.*$"]⟩, [])
    ∧ (matchesDefaultExcludePattern "_secret" = true ↔ "_secret".data.head? = some '_') :=
  ⟨((default_exclude_underscore reCompileOk rfl).1).2,
   (default_exclude_underscore reCompileOk rfl).2 "_secret" (by decide)⟩

/-- C10: the public `from_type` returns a strategy for every resolution
outcome — an exception of the underlying `_from_type` is converted into the
lazily deferred strategy, and the resolution error surfaces only when a value
is first drawn from that strategy; a successful resolution is returned directly
and drawing yields it. -/
theorem from_type_never_raises :
    ∀ (resolve : PyType → Except String PyStrategy) (t : PyType),
      (∀ err, resolve t = .error err →
        from_type_patched resolve t = .lazyDeferredFromType t
        ∧ drawFromWrapped resolve (from_type_patched resolve t) = .error err)
      ∧ (∀ s, resolve t = .ok s →
        from_type_patched resolve t = .direct s
        ∧ drawFromWrapped resolve (from_type_patched resolve t) = .ok s) := by
  intro resolve t
  constructor
  · intro err h
    have h1 : from_type_patched resolve t = .lazyDeferredFromType t := by
      unfold from_type_patched
      simp only [h]
    refine ⟨h1, ?_⟩
    rw [h1]
    unfold drawFromWrapped
    exact h
  · intro s h
    have h1 : from_type_patched resolve t = .direct s := by
      unfold from_type_patched
      simp only [h]
    refine ⟨h1, ?_⟩
    rw [h1]
    rfl

/-- Witness for C10: `_from_type` fails on a concrete abstract type with no
subclasses, `from_type` still returns the deferred strategy, and the error
surfaces at the first draw. -/
theorem from_type_never_raises_witness :
    from_type_patched from_type_resolve
        ⟨"<class 'D'>", none, [], false, [], [], false, false, true, []⟩
      = .lazyDeferredFromType
          ⟨"<class 'D'>", none, [], false, [], [], false, false, true, []⟩
    ∧ drawFromWrapped from_type_resolve
        (from_type_patched from_type_resolve
          ⟨"<class 'D'>", none, [], false, [], [], false, false, true, []⟩)
      = .error (abstractNoSubclassesError "<class 'D'>") :=
  (from_type_never_raises from_type_resolve
      ⟨"<class 'D'>", none, [], false, [], [], false, false, true, []⟩).1
    (abstractNoSubclassesError "<class 'D'>") rfl

end IcontractHypothesis
